import Mathlib

/-!
Verification of the daily-rollover and persistence engine of the Daily Tasks
server (src/server/index.js) against its natural-language specification.

The JavaScript core is embedded shallowly:

* A persisted document (the JSON file at DATA_FILE) becomes the structure
  Document.  Dates and timestamps are the strings the code stores; null
  becomes Option.none.
* Every handler reads the file, mutates the parsed object and writes it
  back.  Each handler is embedded as a pure function taking the currently
  persisted Document (plus the request inputs, the wall clock values the
  code samples, and a Bool telling whether a fs write would succeed) and
  returning the persisted Document after the handler ran together with the
  handler result.
* fs.writeFileSync failing means the file keeps its former content while
  the in-memory object the handler built is discarded, so on a failed save
  the returned persisted Document is the input one.
-/

namespace DailyTasks

/-- A task as stored in tasks.json.  completedAt is null or an ISO
timestamp string; priority is whatever string the client sent
(default "medium"). -/
structure Task where
  id : String
  title : String
  description : String
  priority : String
  completed : Bool
  createdAt : String
  completedAt : Option String
deriving Repr, DecidableEq

/-- One element of the history array written by checkDailyReset. -/
structure HistoryEntry where
  date : String
  completedTasks : List Task
  totalTasks : Nat
  completedCount : Nat
deriving Repr, DecidableEq

/-- The whole persisted document: tasks, lastReset (YYYY-MM-DD) and
history. -/
structure Document where
  tasks : List Task
  lastReset : String
  history : List HistoryEntry
deriving Repr, DecidableEq

/-- The fresh document readTasks falls back to (and the initial file
content): empty tasks, empty history, lastReset = today. -/
def freshDocument (today : String) : Document :=
  { tasks := [], lastReset := today, history := [] }

/-- readTasks: reads and parses DATA_FILE; on any read or parse error it
logs and returns a fresh document dated today.  The raw argument is the
parse of the file: none models an absent or unreadable file.  The function
is total: no error reaches the caller. -/
def readTasks (raw : Option Document) (today : String) : Document :=
  match raw with
  | some d => d
  | none => freshDocument today

/-- The mutation the reset loop applies to every task object:
task.completed = false; task.completedAt = null. -/
def resetTask (t : Task) : Task :=
  { t with completed := false, completedAt := none }

/-- The document checkDailyReset builds in memory (and persists when the
write succeeds) in its reset branch.  Faithful to an aliasing detail of the
source: history.push receives the very task objects of data.tasks, and the
forEach that follows mutates those same objects before the document is
serialized, so the archived completedTasks are written with
completed = false and completedAt = null; hence the map resetTask on the
snapshot below. -/
def rolloverDocument (data : Document) (today : String) : Document :=
  let completedTasks := data.tasks.filter (fun t => t.completed)
  let newHistory :=
    if 0 < data.tasks.length then
      if 0 < completedTasks.length then
        data.history ++
          [{ date := data.lastReset,
             completedTasks := completedTasks.map resetTask,
             totalTasks := data.tasks.length,
             completedCount := completedTasks.length }]
      else data.history
    else data.history
  { tasks := data.tasks.map resetTask,
    lastReset := today,
    history := newHistory }

/-- checkDailyReset: reads the persisted document; if lastReset differs
from today it archives the completed tasks, clears every completion flag,
advances lastReset, saves, and returns true; otherwise it returns false
without touching anything.  saveOk tells whether the writeTasks call would
succeed; the source ignores writeTasks' return value, so the function
returns true in the reset branch even when the save failed (in which case
the file keeps the old document). -/
def checkDailyReset (data : Document) (today : String) (saveOk : Bool) :
    Document × Bool :=
  if data.lastReset ≠ today then
    let newData := rolloverDocument data today
    (if saveOk then newData else data, true)
  else
    (data, false)

/-- Whitespace as stripped by the JavaScript trim the handlers apply to
titles and descriptions (the ASCII part of the ECMAScript WhiteSpace and
LineTerminator sets). -/
def isJsWhitespace (c : Char) : Bool :=
  c = ' ' || c = '\t' || c = '\n' || c = '\r' || c = '\x0b' || c = '\x0c'

/-- JavaScript String.prototype.trim as the source calls it: removes
whitespace from both ends of the string. -/
def jsTrim (s : String) : String :=
  String.mk (((s.data.dropWhile isJsWhitespace).reverse.dropWhile
    isJsWhitespace).reverse)

/-- Outcome of an HTTP handler, abstracting the status code it answers
with: ok for 2xx, clientError for 400/404, serverError for 500. -/
inductive ApiResult where
  | ok : ApiResult
  | clientError : ApiResult
  | serverError : ApiResult
deriving Repr, DecidableEq

/-- The task object the POST handler constructs: id is
Date.now().toString() (now is the millisecond timestamp), title is
trimmed, a missing description becomes "", a missing priority becomes
"medium", completed is false, completedAt is null. -/
def newTaskOf (title : String) (description priority : Option String)
    (now : Nat) (createdAt : String) : Task :=
  { id := toString now,
    title := jsTrim title,
    description := ((description.map jsTrim).getD ""),
    priority := priority.getD "medium",
    completed := false,
    createdAt := createdAt,
    completedAt := none }

/-- The POST /api/tasks handler.  It rejects a missing or
whitespace-only title with 400 before touching anything, then runs
checkDailyReset (which may itself save), re-reads, appends the new task
and saves; a failed final save answers 500 and leaves the file with
whatever checkDailyReset last persisted.  now and createdAt are the two
wall clock samples (Date.now() and new Date().toISOString()), today the
current date used inside checkDailyReset, resetSaveOk and saveOk whether
the two writes succeed. -/
def postTask (stored : Document) (title description priority : Option String)
    (now : Nat) (createdAt today : String) (resetSaveOk saveOk : Bool) :
    Document × ApiResult :=
  match title with
  | none => (stored, ApiResult.clientError)
  | some t =>
    if jsTrim t = "" then (stored, ApiResult.clientError)
    else
      let afterReset := (checkDailyReset stored today resetSaveOk).1
      let newTask := newTaskOf t description priority now createdAt
      let newData := { afterReset with tasks := afterReset.tasks ++ [newTask] }
      if saveOk then (newData, ApiResult.ok)
      else (afterReset, ApiResult.serverError)

/-- Replace the first element satisfying p by its image under f, as the
source does through findIndex followed by an in-place update. -/
def updateFirst (p : Task → Bool) (f : Task → Task) : List Task → List Task
  | [] => []
  | t :: ts => if p t then f t :: ts else t :: updateFirst p f ts

/-- The field updates the PUT handler applies to the found task: only
fields present in the request body are applied; setting completed to true
stamps completedAt with the current timestamp, setting it to false clears
it; title and description are trimmed with no emptiness check; priority is
taken as sent. -/
def applyUpdate (completed : Option Bool)
    (title description priority : Option String) (nowIso : String)
    (t : Task) : Task :=
  let t1 := match completed with
    | some c => { t with completed := c,
                         completedAt := if c then some nowIso else none }
    | none => t
  let t2 := match title with
    | some s => { t1 with title := jsTrim s }
    | none => t1
  let t3 := match description with
    | some s => { t2 with description := jsTrim s }
    | none => t2
  match priority with
  | some p => { t3 with priority := p }
  | none => t3

/-- The PUT /api/tasks/:id handler.  Note the source never calls
checkDailyReset here: it reads the file, looks the task up by id (404 when
absent), applies the present fields to the task at the found index and
saves (500 on failure, leaving the file unchanged). -/
def putTask (stored : Document) (id : String) (completed : Option Bool)
    (title description priority : Option String) (nowIso : String)
    (saveOk : Bool) : Document × ApiResult :=
  if stored.tasks.any (fun t => t.id = id) then
    let newTasks := updateFirst (fun t => t.id = id)
      (applyUpdate completed title description priority nowIso) stored.tasks
    if saveOk then ({ stored with tasks := newTasks }, ApiResult.ok)
    else (stored, ApiResult.serverError)
  else
    (stored, ApiResult.clientError)

/-- Remove the first element satisfying p, as the source does through
findIndex followed by splice(index, 1). -/
def removeFirst (p : Task → Bool) : List Task → List Task
  | [] => []
  | t :: ts => if p t then ts else t :: removeFirst p ts

/-- The DELETE /api/tasks/:id handler.  It too never calls
checkDailyReset: it reads, looks the task up by id (404 when absent),
splices it out and saves (500 on failure, leaving the file unchanged). -/
def deleteTask (stored : Document) (id : String) (saveOk : Bool) :
    Document × ApiResult :=
  if stored.tasks.any (fun t => t.id = id) then
    let newTasks := removeFirst (fun t => t.id = id) stored.tasks
    if saveOk then ({ stored with tasks := newTasks }, ApiResult.ok)
    else (stored, ApiResult.serverError)
  else
    (stored, ApiResult.clientError)

/-- The GET /api/tasks handler: it runs checkDailyReset first, then
re-reads and answers with the now-current document. -/
def getTasks (stored : Document) (today : String) (resetSaveOk : Bool) :
    Document × ApiResult :=
  ((checkDailyReset stored today resetSaveOk).1, ApiResult.ok)

/-- A concrete task completed on 2024-01-01, used to instantiate the
general theorems. -/
def sampleTask1 : Task :=
  { id := "1", title := "Write report", description := "", priority := "high",
    completed := true, createdAt := "2024-01-01T08:00:00.000Z",
    completedAt := some "2024-01-01T12:00:00.000Z" }

/-- A concrete task never completed, used to instantiate the general
theorems. -/
def sampleTask2 : Task :=
  { id := "2", title := "Walk the dog", description := "evening",
    priority := "medium", completed := false,
    createdAt := "2024-01-01T08:00:00.000Z", completedAt := none }

/-- A concrete document dated 2024-01-01, one task of two completed. -/
def sampleDoc : Document :=
  { tasks := [sampleTask1, sampleTask2], lastReset := "2024-01-01",
    history := [] }

/-- Claim C3: checkDailyReset is idempotent within a day.  When lastReset
already equals today it returns the document unchanged together with
false (no reset performed), and for any document a second invocation with
the same today leaves the persisted document exactly as the first
invocation left it. -/
theorem checkDailyReset_idempotent (d : Document) (today : String)
    (saveOk : Bool) :
    (d.lastReset = today → checkDailyReset d today saveOk = (d, false)) ∧
    (checkDailyReset (checkDailyReset d today saveOk).1 today saveOk).1
      = (checkDailyReset d today saveOk).1 := by
  constructor
  · intro h
    simp [checkDailyReset, h]
  · by_cases h : d.lastReset = today
    · simp [checkDailyReset, h]
    · cases saveOk
      · simp [checkDailyReset, h]
      · simp [checkDailyReset, rolloverDocument, h]

/-- Witness for checkDailyReset_idempotent at a concrete document whose
lastReset is already today. -/
theorem checkDailyReset_idempotent_witness :
    checkDailyReset sampleDoc "2024-01-01" true = (sampleDoc, false) :=
  (checkDailyReset_idempotent sampleDoc "2024-01-01" true).1 rfl

/-- Claim C4: when lastReset differs from today (any gap size, since only
string inequality is tested) and at least one task is completed, the
rollover appends exactly one history entry carrying the old lastReset as
its date and the pre-reset task count and completed count, and advances
lastReset to today, signalling that a reset was performed. -/
theorem rollover_appends_single_entry (d : Document) (today : String)
    (hDay : d.lastReset ≠ today)
    (hC : 0 < (d.tasks.filter (fun t => t.completed)).length) :
    (checkDailyReset d today true).1.history =
      d.history ++
        [{ date := d.lastReset,
           completedTasks :=
             (d.tasks.filter (fun t => t.completed)).map resetTask,
           totalTasks := d.tasks.length,
           completedCount :=
             (d.tasks.filter (fun t => t.completed)).length }] ∧
    (checkDailyReset d today true).1.lastReset = today ∧
    (checkDailyReset d today true).2 = true := by
  have hT : 0 < d.tasks.length :=
    lt_of_lt_of_le hC (List.length_filter_le _ _)
  refine ⟨?_, ?_, ?_⟩ <;>
    simp [checkDailyReset, rolloverDocument, hDay, hT, hC]

/-- Witness for rollover_appends_single_entry on a concrete stale
document with one completed task. -/
theorem rollover_appends_single_entry_witness :
    sampleDoc.lastReset ≠ "2024-01-02" ∧
    0 < (sampleDoc.tasks.filter (fun t => t.completed)).length ∧
    (checkDailyReset sampleDoc "2024-01-02" true).1.lastReset
      = "2024-01-02" :=
  ⟨by decide, by decide,
    (rollover_appends_single_entry sampleDoc "2024-01-02" (by decide)
      (by decide)).2.1⟩

/-- Claim C5: when lastReset differs from today and no task is completed,
the rollover advances lastReset to today but leaves history exactly as it
was: no entry is appended. -/
theorem rollover_no_completed_no_history (d : Document) (today : String)
    (hDay : d.lastReset ≠ today)
    (hC : ∀ t ∈ d.tasks, t.completed = false) :
    (checkDailyReset d today true).1.history = d.history ∧
    (checkDailyReset d today true).1.lastReset = today := by
  have hF : d.tasks.filter (fun t => t.completed) = [] := by
    rw [List.filter_eq_nil_iff]
    intro a ha
    simp [hC a ha]
  constructor <;> simp [checkDailyReset, rolloverDocument, hDay, hF]

/-- Witness for rollover_no_completed_no_history on a concrete stale
document with no completed task. -/
theorem rollover_no_completed_no_history_witness :
    (freshDocument "2024-01-01").lastReset ≠ "2024-01-03" ∧
    (checkDailyReset (freshDocument "2024-01-01") "2024-01-03" true).1.history
      = (freshDocument "2024-01-01").history :=
  ⟨by decide,
    (rollover_no_completed_no_history (freshDocument "2024-01-01")
      "2024-01-03" (by decide) (by decide)).1⟩

/-- Claim C6: a rollover keeps the task list intact: the resulting tasks
are exactly the original ones, in order, each sent through resetTask, and
resetTask only clears completed and completedAt while preserving id,
title, description, priority and createdAt. -/
theorem rollover_preserves_task_list (d : Document) (today : String)
    (hDay : d.lastReset ≠ today) :
    (checkDailyReset d today true).1.tasks = d.tasks.map resetTask ∧
    (checkDailyReset d today true).1.tasks.length = d.tasks.length ∧
    ∀ t : Task, (resetTask t).id = t.id ∧ (resetTask t).title = t.title ∧
      (resetTask t).description = t.description ∧
      (resetTask t).priority = t.priority ∧
      (resetTask t).createdAt = t.createdAt ∧
      (resetTask t).completed = false ∧
      (resetTask t).completedAt = none := by
  refine ⟨?_, ?_, ?_⟩ <;>
    simp [checkDailyReset, rolloverDocument, hDay, resetTask]

/-- Witness for rollover_preserves_task_list on a concrete stale
document. -/
theorem rollover_preserves_task_list_witness :
    sampleDoc.lastReset ≠ "2024-01-02" ∧
    (checkDailyReset sampleDoc "2024-01-02" true).1.tasks
      = sampleDoc.tasks.map resetTask :=
  ⟨by decide,
    (rollover_preserves_task_list sampleDoc "2024-01-02" (by decide)).1⟩

/-- Claim C10: when the persisted file is absent or unreadable (raw input
none), readTasks returns a fresh document whose tasks and history are
empty and whose lastReset is today, raising nothing: the function is
total. -/
theorem readTasks_fresh_on_failure (today : String) :
    (readTasks none today).tasks = [] ∧
    (readTasks none today).history = [] ∧
    (readTasks none today).lastReset = today := by
  refine ⟨rfl, rfl, rfl⟩

/-- Claim C1 (refuted by the code): at a concrete rollover of sampleDoc
the appended history entry stores its archived task with
completed = false and completedAt = null.  history.push received the very
task objects the reset loop then mutated before the document was written,
so the archive is not a snapshot of the completed partition as it existed
at the moment of rollover. -/
theorem rollover_snapshot_loses_completion :
    (checkDailyReset sampleDoc "2024-01-02" true).1.history =
      [{ date := "2024-01-01",
         completedTasks := [resetTask sampleTask1],
         totalTasks := 2, completedCount := 1 }] ∧
    ∀ e ∈ (checkDailyReset sampleDoc "2024-01-02" true).1.history,
      ∀ t ∈ e.completedTasks,
        t.completed = false ∧ t.completedAt = none := by
  decide

/-- Claim C2 (refuted by the code): the PUT and DELETE handlers never
invoke checkDailyReset.  Completing task 2 of sampleDoc on 2024-01-02
leaves lastReset at the stale 2024-01-01 and leaves task 1 carrying its
2024-01-01 completion, which the caller observes; deleting likewise
performs no rollover and archives nothing. -/
theorem putTask_skips_rollover :
    (putTask sampleDoc "2" (some true) none none none
        "2024-01-02T09:00:00.000Z" true).1.lastReset = "2024-01-01" ∧
    (∃ t ∈ (putTask sampleDoc "2" (some true) none none none
        "2024-01-02T09:00:00.000Z" true).1.tasks,
      t.id = "1" ∧ t.completed = true ∧
        t.completedAt = some "2024-01-01T12:00:00.000Z") ∧
    (deleteTask sampleDoc "2" true).1.lastReset = "2024-01-01" ∧
    (deleteTask sampleDoc "2" true).1.history = [] := by
  decide

/-- Claim C8 (refuted by the code): the PUT handler trims a present title
with no emptiness check, so updating task 1 of sampleDoc with a
whitespace-only title persists an empty title, breaking the stated
invariant; creation, by contrast, does reject a whitespace-only title
with no mutation, as the last two conjuncts record. -/
theorem putTask_allows_empty_title :
    (∃ t ∈ (putTask sampleDoc "1" none (some "   ") none none
        "2024-01-01T09:00:00.000Z" true).1.tasks,
      t.id = "1" ∧ t.title = "") ∧
    (postTask sampleDoc (some "   ") none none 170
        "2024-01-01T09:00:00.000Z" "2024-01-01" true true).2
      = ApiResult.clientError ∧
    (postTask sampleDoc (some "   ") none none 170
        "2024-01-01T09:00:00.000Z" "2024-01-01" true true).1
      = sampleDoc := by
  decide

/-- Claim C9 (refuted by the code on the rollover path): checkDailyReset
discards writeTasks' return value, so with the save failing on a stale
document it still answers true, "reset performed", while the file keeps
the old document; the three handler conjuncts record the part of the
claim the code does honour, a failed save answering 500. -/
theorem checkDailyReset_ignores_save_failure :
    checkDailyReset sampleDoc "2024-01-02" false = (sampleDoc, true) ∧
    (putTask sampleDoc "1" (some true) none none none
        "2024-01-01T09:00:00.000Z" false).2 = ApiResult.serverError ∧
    (deleteTask sampleDoc "1" false).2 = ApiResult.serverError ∧
    (postTask sampleDoc (some "Tea") none none 9
        "2024-01-01T09:00:00.000Z" "2024-01-01" true false).2
      = ApiResult.serverError := by
  decide

/-- A concrete document already holding a task whose id is the string of
the millisecond timestamp 5. -/
def dupDoc : Document :=
  { tasks := [{ id := "5", title := "Old", description := "",
                priority := "medium", completed := false,
                createdAt := "2024-01-01T00:00:00.005Z",
                completedAt := none }],
    lastReset := "2024-01-01", history := [] }

/-- Claim C7 counterexample: task ids are Date.now().toString() and are
never compared with existing ids, so creating a task when Date.now() is 5
while a task with id "5" already exists leaves two tasks with the same
id in the store. -/
theorem postTask_duplicate_id :
    ((postTask dupDoc (some "New") none none 5 "2024-01-01T00:00:00.005Z"
        "2024-01-01" true true).1.tasks.map (fun t => t.id))
      = ["5", "5"] := by
  decide

/-- Task ids survive checkDailyReset unchanged and in order: the task
list it leaves behind is either the input one or the input one mapped
through resetTask, which keeps ids. -/
theorem checkDailyReset_tasks_id (d : Document) (today : String)
    (saveOk : Bool) :
    (checkDailyReset d today saveOk).1.tasks.map (fun t => t.id)
      = d.tasks.map (fun t => t.id) := by
  by_cases h : d.lastReset = today
  · simp [checkDailyReset, h]
  · cases saveOk
    · simp [checkDailyReset, h]
    · simp [checkDailyReset, rolloverDocument, h, resetTask]

/-- Claim C7 amended: provided the string of the creation timestamp
differs from every stored task's id (the code never checks this), the
POST handler, after running the rollover check, appends the new task to
the otherwise-unchanged task list; the new task has completed = false and
completedAt absent and its id differs from the id of every task already
present. -/
theorem postTask_creates_fresh_task (stored : Document) (title : String)
    (description priority : Option String) (now : Nat)
    (createdAt today : String) (resetSaveOk : Bool)
    (hT : ¬ jsTrim title = "")
    (hId : ∀ t ∈ stored.tasks, t.id ≠ toString now) :
    (postTask stored (some title) description priority now createdAt today
        resetSaveOk true).1.tasks
      = (checkDailyReset stored today resetSaveOk).1.tasks
          ++ [newTaskOf title description priority now createdAt] ∧
    (newTaskOf title description priority now createdAt).completed
      = false ∧
    (newTaskOf title description priority now createdAt).completedAt
      = none ∧
    ∀ t ∈ (checkDailyReset stored today resetSaveOk).1.tasks,
      t.id ≠ (newTaskOf title description priority now createdAt).id := by
  refine ⟨?_, rfl, rfl, ?_⟩
  · simp [postTask, hT]
  · intro t ht
    have hmem : t.id ∈ (checkDailyReset stored today
        resetSaveOk).1.tasks.map (fun t => t.id) :=
      List.mem_map_of_mem _ ht
    rw [checkDailyReset_tasks_id] at hmem
    obtain ⟨s, hs, hsid⟩ := List.mem_map.mp hmem
    intro hEq
    apply hId s hs
    rw [hsid, hEq]
    rfl

/-- Witness for postTask_creates_fresh_task at a concrete document and a
timestamp colliding with no stored id. -/
theorem postTask_creates_fresh_task_witness :
    (¬ jsTrim "New" = "") ∧
    (∀ t ∈ sampleDoc.tasks, t.id ≠ toString 99) ∧
    (postTask sampleDoc (some "New") none none 99
        "2024-01-01T10:00:00.000Z" "2024-01-01" true true).1.tasks
      = (checkDailyReset sampleDoc "2024-01-01" true).1.tasks
          ++ [newTaskOf "New" none none 99 "2024-01-01T10:00:00.000Z"] :=
  ⟨by decide, by decide,
    (postTask_creates_fresh_task sampleDoc "New" none none 99
      "2024-01-01T10:00:00.000Z" "2024-01-01" true (by decide)
      (by decide)).1⟩

end DailyTasks
